import Mathlib

/-!
Shallow embedding of `southwark/repo.py`: the identity-resolution function
`get_user_identity` and the identity-defaulting logic of `Repo.do_commit`.

Byte strings are modelled as `List Char` (Python utf-8 encoding becomes
`String.data`, which is faithful for the prefix/suffix/slice operations the
code performs).
The ambient environment (`os.environ`) is an association list; the layered
configuration store is a function from (section, key) to a lookup outcome that is
either a value, a `KeyError` (caught by the code), or an unexpected error
(propagated); the host-default provider (`dulwich.repo._get_default_identity`,
an external collaborator) is an optional (name, email) pair, `none` meaning the
provider fails.
-/

namespace Southwark

abbrev Bytes := List Char

/-- Python utf-8 encoding of a string, at the level of abstraction of this model. -/
def encode (s : String) : Bytes := s.data

/-- Model of os.environ.get: the first binding of the variable in the environment, if any. -/
def envGet (environ : List (String × String)) (k : String) : Option String :=
  match environ.find? (fun p => p.1 = k) with
  | some p => some p.2
  | none => none

/-- Outcome of `config.get(section, key)`: a value, a `KeyError` (the key is
absent), or an unexpected error carrying an error code. -/
inductive ConfigResult where
  | found (v : Bytes)
  | keyError
  | err (code : Nat)
  deriving DecidableEq

/-- The layered configuration store (`dulwich.config.StackedConfig`),
abstracted to its `get` method. -/
structure ConfigStore where
  get : List String → String → ConfigResult

/-- Errors that can escape `get_user_identity`: an unexpected error raised by
the config store, or failure of the host-default provider. -/
inductive ResError where
  | configError (code : Nat)
  | hostDefaultUnavailable
  deriving DecidableEq

/-- Python truthiness of the optional `kind` argument: `if kind:` is taken
only for a non-empty string. -/
def kindTruthy : Option String → Bool
  | none => false
  | some s => !s.isEmpty

/-- Environment lookup of the role name variable (GIT_ followed by the kind and
_NAME) performed by the truthy-kind block (lines 80-83): `none` when `kind` is
falsy or the variable is unset. -/
def envName (environ : List (String × String)) (kind : Option String) : Option Bytes :=
  match kind with
  | some k => if k.isEmpty then none else (envGet environ ("GIT_" ++ k ++ "_NAME")).map encode
  | none => none

/-- Environment lookup of the role email variable (GIT_ followed by the kind and
_EMAIL) performed by the truthy-kind block (lines 84-86). -/
def envEmail (environ : List (String × String)) (kind : Option String) : Option Bytes :=
  match kind with
  | some k => if k.isEmpty then none else (envGet environ ("GIT_" ++ k ++ "_EMAIL")).map encode
  | none => none

/-- One config-filling block of lines 88-98: when the field is still unset, query
the store; a KeyError falls through to `none`, an unexpected error propagates. -/
def configLookup (config : ConfigStore) (key : String) (cur : Option Bytes) :
    Except ResError (Option Bytes) :=
  match cur with
  | some v => Except.ok (some v)
  | none =>
    match ConfigStore.get config ([ "user" ]) key with
    | ConfigResult.found v => Except.ok (some v)
    | ConfigResult.keyError => Except.ok none
    | ConfigResult.err code => Except.error (ResError.configError code)

/-- Byte-level check that the email starts with a given byte (line 108). -/
def bstartswith (b : Bytes) (c : Char) : Bool :=
  match b with
  | [] => false
  | x :: _ => x == c

/-- Byte-level check that the email ends with a given byte (line 108). -/
def bendswith (b : Bytes) (c : Char) : Bool :=
  match b.getLast? with
  | some x => x == c
  | none => false

/-- Lines 108-109: when the email both starts with an opening angle bracket and
ends with a closing one, slice off the first and last byte. -/
def normalizeEmail (e : Bytes) : Bytes :=
  if bstartswith e '<' && bendswith e '>' then (e.drop 1).dropLast else e

/-- Line 111: concatenate the name, a space and opening bracket, the email, and a closing bracket. -/
def serializeIdentity (user email : Bytes) : Bytes :=
  user ++ (" <".data) ++ email ++ (">".data)

/-- The function get_user_identity of lines 56-111, with the ambient environment
and the host-default provider made explicit parameters. -/
def get_user_identity (environ : List (String × String)) (config : ConfigStore)
    (hostDefault : Option (Bytes × Bytes)) (kind : Option String) :
    Except ResError Bytes :=
  match configLookup config "name" (envName environ kind) with
  | Except.error e => Except.error e
  | Except.ok user1 =>
    match configLookup config "email" (envEmail environ kind) with
    | Except.error e => Except.error e
    | Except.ok email1 =>
      match user1, email1 with
      | some u, some e => Except.ok (serializeIdentity u (normalizeEmail e))
      | uo, eo =>
        match hostDefault with
        | some d => Except.ok (serializeIdentity (uo.getD d.1) (normalizeEmail (eo.getD d.2)))
        | none => Except.error ResError.hostDefaultUnavailable

/-- `get_user_identity` instrumented with the number of times the host-default
provider is invoked (the `repo._get_default_identity()` call on line 101). -/
def get_user_identity_count (environ : List (String × String)) (config : ConfigStore)
    (hostDefault : Option (Bytes × Bytes)) (kind : Option String) :
    Except ResError Bytes × Nat :=
  match configLookup config "name" (envName environ kind) with
  | Except.error e => (Except.error e, 0)
  | Except.ok user1 =>
    match configLookup config "email" (envEmail environ kind) with
    | Except.error e => (Except.error e, 0)
    | Except.ok email1 =>
      match user1, email1 with
      | some u, some e => (Except.ok (serializeIdentity u (normalizeEmail e)), 0)
      | uo, eo =>
        match hostDefault with
        | some d => (Except.ok (serializeIdentity (uo.getD d.1) (normalizeEmail (eo.getD d.2))), 1)
        | none => (Except.error ResError.hostDefaultUnavailable, 1)

/-- Modelled from the spec: per-field precedence (spec section 4.1, steps 1-3):
the field takes the environment value when defined, else the config value when
found, else the corresponding component of the host-default pair. Written from
the words of the spec, for comparison with `get_user_identity`. -/
def pickField (envv : Option Bytes) (cfgRes : ConfigResult) (hdField : Option Bytes) :
    Except ResError Bytes :=
  match envv with
  | some v => Except.ok v
  | none =>
    match cfgRes with
    | ConfigResult.found v => Except.ok v
    | ConfigResult.err code => Except.error (ResError.configError code)
    | ConfigResult.keyError =>
      match hdField with
      | some d => Except.ok d
      | none => Except.error ResError.hostDefaultUnavailable

/-- Spec-side resolution of the name field alone. -/
def pickName (environ : List (String × String)) (config : ConfigStore)
    (hostDefault : Option (Bytes × Bytes)) (kind : Option String) :
    Except ResError Bytes :=
  pickField (envName environ kind) (ConfigStore.get config ([ "user" ]) "name")
    (hostDefault.map Prod.fst)

/-- Spec-side resolution of the email field alone. -/
def pickEmail (environ : List (String × String)) (config : ConfigStore)
    (hostDefault : Option (Bytes × Bytes)) (kind : Option String) :
    Except ResError Bytes :=
  pickField (envEmail environ kind) (ConfigStore.get config ([ "user" ]) "email")
    (hostDefault.map Prod.snd)

/-- The name field is settled by the environment and config steps alone
(so the host-default provider is not needed for it). -/
def nameResolvedEC (environ : List (String × String)) (config : ConfigStore)
    (kind : Option String) : Bool :=
  match envName environ kind with
  | some _ => true
  | none =>
    match ConfigStore.get config ([ "user" ]) "name" with
    | ConfigResult.found _ => true
    | _ => false

/-- The email field is settled by the environment and config steps alone. -/
def emailResolvedEC (environ : List (String × String)) (config : ConfigStore)
    (kind : Option String) : Bool :=
  match envEmail environ kind with
  | some _ => true
  | none =>
    match ConfigStore.get config ([ "user" ]) "email" with
    | ConfigResult.found _ => true
    | _ => false

/-- `True` exactly when the config lookup outcome is an unexpected error. -/
def isErr : ConfigResult → Bool
  | ConfigResult.err _ => true
  | _ => false

/-- The identity-defaulting logic of `Repo.do_commit` (lines 164-184): a `None`
committer is replaced by get_user_identity with kind COMMITTER, then a `None`
author by get_user_identity with kind AUTHOR, and the resulting pair is what
is forwarded to the underlying `dulwich` commit operation. -/
def do_commit_identities (environ : List (String × String)) (config : ConfigStore)
    (hostDefault : Option (Bytes × Bytes)) (committer author : Option Bytes) :
    Except ResError (Bytes × Bytes) :=
  match (match committer with
         | none => get_user_identity environ config hostDefault (some "COMMITTER")
         | some c => Except.ok c) with
  | Except.error e => Except.error e
  | Except.ok c =>
    match (match author with
           | none => get_user_identity environ config hostDefault (some "AUTHOR")
           | some a => Except.ok a) with
    | Except.error e => Except.error e
    | Except.ok a => Except.ok (c, a)

/-- Test fixture: a config store with every key absent. -/
def cfgEmptyW : ConfigStore := ⟨fun _ _ => ConfigResult.keyError⟩

/-- Test fixture: a config store defining user.name and user.email (the email
still wrapped in angle brackets, as a git config may store it). -/
def cfgBobW : ConfigStore :=
  ⟨fun _ k => if k = "name" then ConfigResult.found (encode "Bob")
    else if k = "email" then ConfigResult.found (encode "<bob@x.com>")
    else ConfigResult.keyError⟩

/-- Test fixture: a config store whose user.name lookup raises an unexpected
error with code 7. -/
def cfgErrNameW : ConfigStore :=
  ⟨fun _ k => if k = "name" then ConfigResult.err 7 else ConfigResult.keyError⟩

/-- Test fixture: an environment defining the author name and email. -/
def envAliceW : List (String × String) :=
  [("GIT_AUTHOR_NAME", "Alice"), ("GIT_AUTHOR_EMAIL", "alice@x.com")]

end Southwark

namespace Southwark

/-- Claim C2: the email normalization applied by resolve strips exactly one leading
angle bracket and one trailing angle bracket, and only when both are present;
otherwise the email is unchanged. -/
theorem email_normalization_strips_once (e : Bytes) :
    (bstartswith e '<' = true → bendswith e '>' = true →
      e = '<' :: (normalizeEmail e ++ [ '>' ])) ∧
    (¬(bstartswith e '<' = true ∧ bendswith e '>' = true) → normalizeEmail e = e) := by
  constructor
  · intro h1 h2
    match e with
    | [] => simp [bstartswith] at h1
    | x :: xs =>
      have hx : x = '<' := by simpa [bstartswith] using h1
      subst hx
      match xs with
      | [] => exact absurd h2 (by decide)
      | y :: ys =>
        have hlast : (y :: ys).getLast? = some '>' := by
          unfold bendswith at h2
          rw [List.getLast?_cons_cons] at h2
          cases hg : (y :: ys).getLast? with
          | none => rw [hg] at h2; simp at h2
          | some c =>
            rw [hg] at h2
            simpa using h2
        have htail : (y :: ys).dropLast ++ [ '>' ] = y :: ys :=
          List.dropLast_append_getLast? '>' hlast
        have hnorm : normalizeEmail ('<' :: y :: ys) = (y :: ys).dropLast := by
          unfold normalizeEmail
          rw [if_pos (by rw [h1, h2]; rfl)]
          simp
        rw [hnorm, htail]
  · intro h
    unfold normalizeEmail
    rw [if_neg]
    simpa [Bool.and_eq_true] using h

/-- Witness for claim C2. -/
theorem email_normalization_strips_once_witness :
    ("<a@b.com>".data) = '<' :: (normalizeEmail ("<a@b.com>".data) ++ [ '>' ]) :=
  (email_normalization_strips_once ("<a@b.com>".data)).1 (by rfl) (by rfl)

end Southwark

namespace Southwark

/-- Claim C7: whenever resolve returns successfully, the output is the concatenation
name ++ " <" ++ email ++ ">" of the resolved name and post-normalization email,
and in particular is non-empty. -/
theorem resolve_output_serialization (environ : List (String × String))
    (config : ConfigStore) (hostDefault : Option (Bytes × Bytes)) (kind : Option String)
    (r : Bytes) (h : get_user_identity environ config hostDefault kind = Except.ok r) :
    (∃ n e, r = n ++ (" <".data) ++ e ++ (">".data)) ∧ r ≠ [] := by
  have key : ∃ n e, r = serializeIdentity n e := by
    unfold get_user_identity at h
    cases hu : configLookup config "name" (envName environ kind) with
    | error e => rw [hu] at h; cases h
    | ok user1 =>
      rw [hu] at h
      cases he : configLookup config "email" (envEmail environ kind) with
      | error e => rw [he] at h; cases h
      | ok email1 =>
        rw [he] at h
        cases user1 <;> cases email1 <;> cases hostDefault <;> simp at h <;>
          exact ⟨_, _, h.symm⟩
  obtain ⟨n, e, rfl⟩ := key
  refine ⟨⟨n, e, rfl⟩, ?_⟩
  simp [serializeIdentity]

/-- Witness for claim C7. -/
theorem resolve_output_serialization_witness :
    (∃ n e, (encode "Bob <bob@x.com>") = n ++ (" <".data) ++ e ++ (">".data)) ∧
      (encode "Bob <bob@x.com>") ≠ [] :=
  resolve_output_serialization ([]) cfgBobW none none (encode "Bob <bob@x.com>") (by rfl)

/-- Claim C8: resolve is deterministic: two calls with equal role, environment,
config store and host-default state return identical output. -/
theorem resolve_deterministic (e1 e2 : List (String × String)) (c1 c2 : ConfigStore)
    (h1 h2 : Option (Bytes × Bytes)) (k1 k2 : Option String)
    (he : e1 = e2) (hc : c1 = c2) (hh : h1 = h2) (hk : k1 = k2) :
    get_user_identity e1 c1 h1 k1 = get_user_identity e2 c2 h2 k2 := by
  subst he; subst hc; subst hh; subst hk; rfl

/-- Witness for claim C8. -/
theorem resolve_deterministic_witness :
    get_user_identity ([]) cfgBobW none none = get_user_identity ([]) cfgBobW none none :=
  resolve_deterministic ([]) ([]) cfgBobW cfgBobW none none none none rfl rfl rfl rfl

/-- Claim C9: do_commit defaults committer and author independently: a supplied
byte string is forwarded unchanged, a missing committer is resolved with role
COMMITTER and a missing author with role AUTHOR. -/
theorem do_commit_identity_defaulting (environ : List (String × String))
    (config : ConfigStore) (hostDefault : Option (Bytes × Bytes)) :
    (∀ c a, do_commit_identities environ config hostDefault (some c) (some a) =
      Except.ok (c, a)) ∧
    (∀ a, do_commit_identities environ config hostDefault none (some a) =
      Except.map (fun c => (c, a))
        (get_user_identity environ config hostDefault (some "COMMITTER"))) ∧
    (∀ c, do_commit_identities environ config hostDefault (some c) none =
      Except.map (fun a => (c, a))
        (get_user_identity environ config hostDefault (some "AUTHOR"))) ∧
    (do_commit_identities environ config hostDefault none none =
      Except.bind (get_user_identity environ config hostDefault (some "COMMITTER"))
        (fun c => Except.map (fun a => (c, a))
          (get_user_identity environ config hostDefault (some "AUTHOR")))) := by
  refine ⟨fun c a => rfl, fun a => ?_, fun c => ?_, ?_⟩
  · unfold do_commit_identities
    cases get_user_identity environ config hostDefault (some "COMMITTER") <;>
      simp [Except.map]
  · unfold do_commit_identities
    cases get_user_identity environ config hostDefault (some "AUTHOR") <;>
      simp [Except.map]
  · unfold do_commit_identities
    cases get_user_identity environ config hostDefault (some "COMMITTER") <;>
      cases get_user_identity environ config hostDefault (some "AUTHOR") <;>
        simp [Except.map, Except.bind]

/-- Claim C10: the empty-string role behaves exactly like an absent role: the result
coincides with the no-role result, and the environment is never consulted. -/
theorem empty_role_like_no_role (config : ConfigStore)
    (hostDefault : Option (Bytes × Bytes)) :
    (∀ environ, get_user_identity environ config hostDefault (some "") =
      get_user_identity environ config hostDefault none) ∧
    (∀ e1 e2, get_user_identity e1 config hostDefault (some "") =
      get_user_identity e2 config hostDefault (some "")) :=
  ⟨fun _ => rfl, fun _ _ => rfl⟩

end Southwark

namespace Southwark

/-- Claim C1: for every role and every combination of sources defining the fields,
a successful resolve picks each field independently from the highest-precedence
source that defines it: environment (for a truthy role), then config store,
then the host-default pair, as captured by the spec-side pickName/pickEmail. -/
theorem resolve_precedence_per_field (environ : List (String × String))
    (config : ConfigStore) (hostDefault : Option (Bytes × Bytes)) (kind : Option String)
    (r : Bytes) (h : get_user_identity environ config hostDefault kind = Except.ok r) :
    ∃ n e, pickName environ config hostDefault kind = Except.ok n ∧
      pickEmail environ config hostDefault kind = Except.ok e ∧
      r = serializeIdentity n (normalizeEmail e) := by
  cases hn : envName environ kind <;>
  cases he : envEmail environ kind <;>
  cases hcn : ConfigStore.get config ([ "user" ]) "name" <;>
  cases hce : ConfigStore.get config ([ "user" ]) "email" <;>
  cases hd : hostDefault <;>
  simp_all [get_user_identity, configLookup, pickName, pickEmail, pickField]

/-- Witness for claim C1. -/
theorem resolve_precedence_per_field_witness :
    ∃ n e, pickName envAliceW cfgBobW none (some "AUTHOR") = Except.ok n ∧
      pickEmail envAliceW cfgBobW none (some "AUTHOR") = Except.ok e ∧
      (encode "Alice <alice@x.com>") = serializeIdentity n (normalizeEmail e) :=
  resolve_precedence_per_field envAliceW cfgBobW none (some "AUTHOR")
    (encode "Alice <alice@x.com>") (by rfl)

end Southwark

namespace Southwark

/-- Claim C3: resolve fails with hostDefaultUnavailable exactly when the host-default
provider fails while some field is still missing after the environment and
config steps (and, for the failure to surface on that path, the config lookups
for missing fields do not themselves raise an unexpected error); conversely any
hostDefaultUnavailable failure implies the provider failed and some field had
no environment or config value. -/
theorem resolve_hostDefaultUnavailable (environ : List (String × String))
    (config : ConfigStore) (hostDefault : Option (Bytes × Bytes)) (kind : Option String) :
    ((hostDefault = none) →
      (envName environ kind = none →
        isErr (ConfigStore.get config ([ "user" ]) "name") = false) →
      (envEmail environ kind = none →
        isErr (ConfigStore.get config ([ "user" ]) "email") = false) →
      ((envName environ kind = none ∧
          ConfigStore.get config ([ "user" ]) "name" = ConfigResult.keyError) ∨
        (envEmail environ kind = none ∧
          ConfigStore.get config ([ "user" ]) "email" = ConfigResult.keyError)) →
      get_user_identity environ config hostDefault kind =
        Except.error ResError.hostDefaultUnavailable) ∧
    (get_user_identity environ config hostDefault kind =
        Except.error ResError.hostDefaultUnavailable →
      hostDefault = none ∧
      ((envName environ kind = none ∧
          ConfigStore.get config ([ "user" ]) "name" = ConfigResult.keyError) ∨
        (envEmail environ kind = none ∧
          ConfigStore.get config ([ "user" ]) "email" = ConfigResult.keyError))) := by
  cases hn : envName environ kind <;>
  cases he : envEmail environ kind <;>
  cases hcn : ConfigStore.get config ([ "user" ]) "name" <;>
  cases hce : ConfigStore.get config ([ "user" ]) "email" <;>
  cases hd : hostDefault <;>
  simp_all [get_user_identity, configLookup, isErr]

/-- Witness for claim C3. -/
theorem resolve_hostDefaultUnavailable_witness :
    get_user_identity ([]) cfgEmptyW none none =
      Except.error ResError.hostDefaultUnavailable :=
  (resolve_hostDefaultUnavailable ([]) cfgEmptyW none none).1 rfl
    (fun _ => rfl) (fun _ => rfl) (Or.inl ⟨rfl, rfl⟩)

end Southwark

namespace Southwark

/-- Claim C4: the host-default provider is invoked at most once per resolve call,
never when both fields are already settled by environment and config, and only
when some field is still unresolved; the pair is fetched atomically but the
component for an already-settled field is discarded (the result does not depend
on it). The instrumented count agrees with resolve on the returned value. -/
theorem hostDefault_invoked_at_most_once (environ : List (String × String))
    (config : ConfigStore) (kind : Option String) :
    (∀ hostDefault, (get_user_identity_count environ config hostDefault kind).1 =
      get_user_identity environ config hostDefault kind) ∧
    (∀ hostDefault, (get_user_identity_count environ config hostDefault kind).2 ≤ 1) ∧
    (nameResolvedEC environ config kind = true →
      emailResolvedEC environ config kind = true →
      ∀ hostDefault, (get_user_identity_count environ config hostDefault kind).2 = 0) ∧
    (∀ hostDefault, (get_user_identity_count environ config hostDefault kind).2 = 1 →
      nameResolvedEC environ config kind = false ∨
        emailResolvedEC environ config kind = false) ∧
    (nameResolvedEC environ config kind = true →
      ∀ du1 du2 de, get_user_identity environ config (some (du1, de)) kind =
        get_user_identity environ config (some (du2, de)) kind) ∧
    (emailResolvedEC environ config kind = true →
      ∀ du de1 de2, get_user_identity environ config (some (du, de1)) kind =
        get_user_identity environ config (some (du, de2)) kind) := by
  cases hn : envName environ kind <;>
  cases he : envEmail environ kind <;>
  cases hcn : ConfigStore.get config ([ "user" ]) "name" <;>
  cases hce : ConfigStore.get config ([ "user" ]) "email" <;>
  simp_all [get_user_identity, get_user_identity_count, configLookup,
    nameResolvedEC, emailResolvedEC] <;>
  constructor <;> intro hd <;> cases hd <;> simp

/-- Witness for claim C4. -/
theorem hostDefault_invoked_at_most_once_witness :
    (get_user_identity_count envAliceW cfgEmptyW (some (encode "S", encode "s"))
      (some "AUTHOR")).2 = 0 :=
  (hostDefault_invoked_at_most_once envAliceW cfgEmptyW (some "AUTHOR")).2.2.1
    (by rfl) (by rfl) (some (encode "S", encode "s"))

end Southwark

namespace Southwark

/-- Claim C5: an environment variable defined with the empty-string value is treated
as present-and-set: with role AUTHOR and GIT_AUTHOR_NAME set to the empty
string, the resolved name is the empty byte string, and neither the config
store nor the host default is consulted for the name field. -/
theorem empty_env_value_is_set (environ : List (String × String))
    (config : ConfigStore) (hostDefault : Option (Bytes × Bytes))
    (h : envGet environ "GIT_AUTHOR_NAME" = some "") :
    pickName environ config hostDefault (some "AUTHOR") = Except.ok ([]) ∧
    (∀ r, get_user_identity environ config hostDefault (some "AUTHOR") = Except.ok r →
      ∃ e, r = serializeIdentity ([]) e) ∧
    (∀ config2, ConfigStore.get config2 ([ "user" ]) "email" =
        ConfigStore.get config ([ "user" ]) "email" →
      get_user_identity environ config2 hostDefault (some "AUTHOR") =
        get_user_identity environ config hostDefault (some "AUTHOR")) ∧
    (∀ du1 du2 de, get_user_identity environ config (some (du1, de)) (some "AUTHOR") =
      get_user_identity environ config (some (du2, de)) (some "AUTHOR")) := by
  have hstr : ("GIT_" ++ "AUTHOR" ++ "_NAME" : String) = "GIT_AUTHOR_NAME" := rfl
  have hne : ("AUTHOR".isEmpty) = false := rfl
  have hen : envName environ (some "AUTHOR") = some ([]) := by
    simp [envName, hstr, h, encode, hne]
  refine ⟨?_, ?_, ?_, ?_⟩
  · simp [pickName, pickField, hen]
  · intro r h2
    cases he : envEmail environ (some "AUTHOR") <;>
    cases hce : ConfigStore.get config ([ "user" ]) "email" <;>
    cases hd : hostDefault <;>
    simp_all [get_user_identity, configLookup] <;>
    exact ⟨_, h2.symm⟩
  · intro config2 hsame
    unfold get_user_identity
    rw [hen]
    unfold configLookup
    rw [hsame]
  · intro du1 du2 de
    unfold get_user_identity
    rw [hen, show configLookup config "name" (some ([] : Bytes)) =
      Except.ok (some ([] : Bytes)) from rfl]
    cases configLookup config "email" (envEmail environ (some "AUTHOR")) with
    | error e => simp
    | ok eo => cases eo <;> simp

/-- Witness for claim C5. -/
theorem empty_env_value_is_set_witness :
    pickName ([("GIT_AUTHOR_NAME", "")]) cfgBobW none (some "AUTHOR") =
      Except.ok ([]) :=
  (empty_env_value_is_set ([("GIT_AUTHOR_NAME", "")]) cfgBobW none (by rfl)).1

end Southwark

namespace Southwark

/-- Claim C6: a config-store key miss falls through internally (a configError can
surface only if some lookup actually raised an unexpected error), while an
unexpected config-store error for a field still unresolved by the environment
propagates out of resolve unchanged. -/
theorem config_miss_falls_through_errors_propagate (environ : List (String × String))
    (config : ConfigStore) (hostDefault : Option (Bytes × Bytes)) (kind : Option String) :
    (∀ code, get_user_identity environ config hostDefault kind =
        Except.error (ResError.configError code) →
      ConfigStore.get config ([ "user" ]) "name" = ConfigResult.err code ∨
        ConfigStore.get config ([ "user" ]) "email" = ConfigResult.err code) ∧
    (∀ code, envName environ kind = none →
      ConfigStore.get config ([ "user" ]) "name" = ConfigResult.err code →
      get_user_identity environ config hostDefault kind =
        Except.error (ResError.configError code)) ∧
    (∀ code, envEmail environ kind = none →
      ConfigStore.get config ([ "user" ]) "email" = ConfigResult.err code →
      (envName environ kind = none →
        isErr (ConfigStore.get config ([ "user" ]) "name") = false) →
      get_user_identity environ config hostDefault kind =
        Except.error (ResError.configError code)) ∧
    (isErr (ConfigStore.get config ([ "user" ]) "name") = false →
      isErr (ConfigStore.get config ([ "user" ]) "email") = false →
      ∀ code, get_user_identity environ config hostDefault kind ≠
        Except.error (ResError.configError code)) := by
  cases hn : envName environ kind <;>
  cases he : envEmail environ kind <;>
  cases hcn : ConfigStore.get config ([ "user" ]) "name" <;>
  cases hce : ConfigStore.get config ([ "user" ]) "email" <;>
  cases hd : hostDefault <;>
  simp_all [get_user_identity, configLookup, isErr]

/-- Witness for claim C6. -/
theorem config_miss_falls_through_errors_propagate_witness :
    get_user_identity ([]) cfgErrNameW none none =
      Except.error (ResError.configError 7) :=
  (config_miss_falls_through_errors_propagate ([]) cfgErrNameW none none).2.1 7 rfl rfl

end Southwark
